import Mathlib

/-!
Verification of the ODYSCAPE recommendation engine (`recommendation-engine`
unit) against its natural-language specification.

The TypeScript source is shallowly embedded: numbers that carry scores are
modelled as rationals (`ℚ`), movie and user identifiers as `Nat`, the external
metadata provider as an environment of per-query responses (`Except Unit`
models a call that may fail and be caught), and the relational store as an
explicit record threaded through the orchestrator.  JavaScript's
`Array.prototype.sort` (required to be stable by ES2019) is modelled by a
stable insertion sort with the same comparator.
-/

namespace MovieRec

/-- TMDB movie summary, as the `Movie` interface of the engine source. -/
structure Movie where
  id : Nat
  title : String
  vote_average : ℚ
  vote_count : Nat
  popularity : ℚ
  release_date : String
  original_language : String
  genre_ids : List Nat
deriving DecidableEq, Repr

/-- Candidate score entry, as the `RecommendationScore` interface. -/
structure RecommendationScore where
  movieId : Nat
  score : ℚ
  genreMatch : ℚ
  languageMatch : ℚ
  collaborativeScore : ℚ
deriving DecidableEq, Repr

/-- The in-place update applied to an existing map entry when a duplicate
movie id arrives: component-wise `Math.max` on the three signal fields. -/
def maxMerge (r rec : RecommendationScore) : RecommendationScore :=
  { r with genreMatch := max r.genreMatch rec.genreMatch,
           languageMatch := max r.languageMatch rec.languageMatch,
           collaborativeScore := max r.collaborativeScore rec.collaborativeScore }

/-- One step of the merge loop of `mergeAndScoreRecommendations`: the JS
`Map` keyed by `movieId` (insertion order preserved) is an association list;
an existing entry for the same movie id gets the component-wise `max`,
otherwise a copy of the entry is appended. -/
def mergeInto (m : List RecommendationScore) (rec : RecommendationScore) :
    List RecommendationScore :=
  if m.any (fun r => r.movieId == rec.movieId) then
    m.map (fun r => if r.movieId = rec.movieId then maxMerge r rec else r)
  else m ++ [rec]

/-- The final-score pass of the merge: overwrite `score` with
`genreMatch + languageMatch + collaborativeScore`. -/
def applyScore (r : RecommendationScore) : RecommendationScore :=
  { r with score := r.genreMatch + r.languageMatch + r.collaborativeScore }

/-- `mergeAndScoreRecommendations`: merge duplicates by movie id
(component-wise max), then recompute
`score = genreMatch + languageMatch + collaborativeScore` on every entry. -/
def mergeAndScoreRecommendations (recommendations : List RecommendationScore) :
    List RecommendationScore :=
  (recommendations.foldl mergeInto []).map applyScore

/-- Stable descending insertion (by `score`): the new element is placed before
every element of strictly smaller score and after all elements of greater or
equal score that were inserted later (i.e. occurred later in the fold),
reproducing the stable behaviour of `Array.prototype.sort` with comparator
`(a, b) => b.score - a.score`. -/
def insertDesc (x : RecommendationScore) :
    List RecommendationScore → List RecommendationScore
  | [] => [x]
  | y :: ys => if x.score < y.score then y :: insertDesc x ys else x :: y :: ys

/-- Stable sort, descending by `score` (model of the JS stable sort). -/
def sortByScoreDesc (l : List RecommendationScore) : List RecommendationScore :=
  l.foldr insertDesc []

/-- The merged, scored and ranked entries of a generation run. -/
def rankedRecommendations (recs : List RecommendationScore) :
    List RecommendationScore :=
  sortByScoreDesc (mergeAndScoreRecommendations recs)

/-- `x` is the maximum of the list `l` (it occurs in it and bounds it). -/
def IsMaxOf (x : ℚ) (l : List ℚ) : Prop :=
  x ∈ l ∧ ∀ y ∈ l, y ≤ x

/-- The multiset of values of field `f` over the input entries sharing movie
id `id`. -/
def groupField (recs : List RecommendationScore) (id : Nat)
    (f : RecommendationScore → ℚ) : List ℚ :=
  (recs.filter (fun r => r.movieId == id)).map f

/-- Invariant of the merge loop relating the processed prefix of the input
to the association list `m` accumulating the JS `Map` contents: ids are
unique, every accumulated entry carries the field-wise maximum over its
group in the processed prefix, and every processed id is represented. -/
def MergeInv (processed m : List RecommendationScore) : Prop :=
  (m.map (·.movieId)).Nodup ∧
  (∀ e ∈ m,
    IsMaxOf e.genreMatch (groupField processed e.movieId (·.genreMatch)) ∧
    IsMaxOf e.languageMatch (groupField processed e.movieId (·.languageMatch)) ∧
    IsMaxOf e.collaborativeScore
      (groupField processed e.movieId (·.collaborativeScore))) ∧
  (∀ r ∈ processed, ∃ e ∈ m, e.movieId = r.movieId)

/-! ## Store (interaction + recommendation persistence) -/

/-- The `preferences` json column of `users`: the engine code guards every
field (`preferences?.genres || []`, `!country`), so each field may be
absent. -/
structure UserPreferences where
  genres : Option (List Nat)
  languages : Option (List String)
  favoriteMovies : Option (List Nat)
  country : Option String
deriving DecidableEq, Repr

/-- A stored user row (the columns the engine reads). -/
structure User where
  id : Nat
  level : Option String
  experiencePoints : Option Nat
  watchedCount : Option Nat
  preferences : Option UserPreferences
deriving DecidableEq, Repr

/-- A `movie_ratings` row as read by the engine. -/
structure RatingRow where
  userId : Nat
  movieId : Nat
  rating : Nat
deriving DecidableEq, Repr

/-- A `user_movie_recommendations` row. -/
structure RecRow where
  userId : Nat
  movieId : Nat
  score : ℚ
  genreMatch : ℚ
  languageMatch : ℚ
  collaborativeScore : ℚ
  recommended : Bool
deriving DecidableEq, Repr

/-- Point-in-time snapshot of the relational store as seen by the engine. -/
structure Store where
  users : List User
  watched : List (Nat × Nat)
  ratings : List RatingRow
  likes : List (Nat × Nat)
  recs : List RecRow
deriving DecidableEq, Repr

/-- `storage.getUser`: first row of `users` with the given id. -/
def getUser (s : Store) (id : Nat) : Option User :=
  s.users.find? (fun u => u.id == id)

/-- Result record of `storage.getUserLevel`. -/
structure UserLevelInfo where
  level : String
  experiencePoints : Nat
  watchedCount : Nat
deriving DecidableEq, Repr

/-- `storage.getUserLevel`: defaults for a missing user; otherwise
`user.level || 'Beginner'` (the empty string is falsy in JS). -/
def getUserLevel (s : Store) (userId : Nat) : UserLevelInfo :=
  match getUser s userId with
  | none => ⟨"Beginner", 0, 0⟩
  | some u =>
    ⟨match u.level with
     | none => "Beginner"
     | some l => if l = "" then "Beginner" else l,
     u.experiencePoints.getD 0, u.watchedCount.getD 0⟩

/-- `storage.getWatchedMovies`: movie ids of the user's watched rows. -/
def getWatchedMovies (s : Store) (userId : Nat) : List Nat :=
  (s.watched.filter (fun w => w.1 == userId)).map (·.2)

/-- `storage.getUserRatings`. -/
def getUserRatings (s : Store) (userId : Nat) : List RatingRow :=
  s.ratings.filter (fun r => r.userId == userId)

/-- `storage.getUserLikes`: movie ids of the user's like rows. -/
def getUserLikes (s : Store) (userId : Nat) : List Nat :=
  (s.likes.filter (fun l => l.1 == userId)).map (·.2)

/-- `storage.clearUserRecommendations`: delete every recommendation row of
the user. -/
def clearUserRecommendations (s : Store) (userId : Nat) : Store :=
  { s with recs := s.recs.filter (fun r => !(r.userId == userId)) }

/-- Update-or-insert on the recommendation rows: the first existing
`(user, movie)` row is overwritten (with `recommended := true`), else a new
row (schema default `recommended = true`) is appended. -/
def upsertRec (rows : List RecRow) (row : RecRow) : List RecRow :=
  match rows with
  | [] => [row]
  | r :: rest =>
    if r.userId == row.userId && r.movieId == row.movieId then row :: rest
    else r :: upsertRec rest row

/-- `storage.saveRecommendation`. -/
def saveRecommendation (s : Store) (userId movieId : Nat)
    (score genreMatch languageMatch collaborativeScore : ℚ) : Store :=
  let row : RecRow :=
    { userId := userId, movieId := movieId, score := score,
      genreMatch := genreMatch, languageMatch := languageMatch,
      collaborativeScore := collaborativeScore, recommended := true }
  { s with recs := upsertRec s.recs row }

/-! ## Metadata provider environment -/

/-- The fixed query profile of one `discover/movie` call issued by the
level-based generator (the parameters that vary across the `switch`). -/
structure DiscoverQuery where
  sortBy : String
  voteAverageGte : Option ℚ
  voteCountGte : Option Nat
  withKeywords : Option String
deriving DecidableEq, Repr

/-- The query profile selected by the `switch (level)` of
`getLevelBasedRecommendations` (four named cases plus the `default` case). -/
def levelQuery (level : String) : DiscoverQuery :=
  if level = "Beginner" then ⟨"popularity.desc", some 7.5, some 1000, none⟩
  else if level = "Explorer" then
    ⟨"vote_average.desc", none, some 500, some "classic,acclaimed"⟩
  else if level = "Cinephile" then
    ⟨"vote_average.desc", none, some 200, some "arthouse,cult,foreign"⟩
  else if level = "Connoisseur" then
    ⟨"vote_average.desc", none, none, some "experimental,masterpiece,auteur,avant-garde"⟩
  else ⟨"vote_average.desc", none, some 1000, none⟩

/-- Responses of the metadata provider, one field per distinct endpoint the
engine calls, keyed by the query parameters that vary; `.error` models a
failed call (caught by the generator's `try/catch`). -/
structure ProviderEnv where
  genreDiscover : List Nat → Except Unit (List Movie)
  languageDiscover : String → Except Unit (List Movie)
  countryDiscover : String → String → Except Unit (List Movie)
  levelDiscover : DiscoverQuery → Except Unit (List Movie)
  similar : Nat → Except Unit (List Movie)
  trending : Except Unit (List Movie)

/-! ## Signal generators -/

/-- `user.preferences?.genres || []`. -/
def userGenres (user : User) : List Nat :=
  (user.preferences.map (·.genres)).join.getD []

/-- `getGenreBasedRecommendations`: inactive without preferred genres;
otherwise one discover call filtered by the genre union, scoring
`genreMatch = |matching genre ids| / |preferred genres| × 1.2`. -/
def getGenreBasedRecommendations (env : ProviderEnv) (user : User) :
    List RecommendationScore :=
  let genres := userGenres user
  if genres.isEmpty then []
  else
    match env.genreDiscover genres with
    | .error _ => []
    | .ok results =>
      results.map (fun movie =>
        let matchingGenres := movie.genre_ids.filter (fun id => genres.contains id)
        { movieId := movie.id
          score := 0
          genreMatch := ((matchingGenres.length : ℚ) / (genres.length : ℚ)) * 1.2
          languageMatch := 0
          collaborativeScore := 0 })

/-- `getLanguageBasedRecommendations`: one discover call per preferred
language (each with its own `try/catch`), flat `languageMatch = 1.1`. -/
def getLanguageBasedRecommendations (env : ProviderEnv) (user : User) :
    List RecommendationScore :=
  let languages := (user.preferences.map (·.languages)).join.getD []
  if languages.isEmpty then []
  else
    languages.flatMap (fun language =>
      match env.languageDiscover language with
      | .error _ => []
      | .ok results =>
        results.map (fun movie =>
          { movieId := movie.id, score := 0, genreMatch := 0,
            languageMatch := 1.1, collaborativeScore := 0 }))

/-- `getCountryBasedRecommendations`: inactive without a (truthy) country;
otherwise a region-restricted discover call (first preferred language, or
`"en"`), flat `collaborativeScore = 1.3`. -/
def getCountryBasedRecommendations (env : ProviderEnv) (user : User) :
    List RecommendationScore :=
  match (user.preferences.map (·.country)).join with
  | none => []
  | some country =>
    if country = "" then []
    else
      let language :=
        match (user.preferences.map (·.languages)).join with
        | some (l :: _) => l
        | _ => "en"
      match env.countryDiscover country language with
      | .error _ => []
      | .ok results =>
        results.map (fun movie =>
          { movieId := movie.id, score := 0, genreMatch := 0,
            languageMatch := 0, collaborativeScore := 1.3 })

/-- `getLevelBasedRecommendations`: the `switch (level)` picks a query
profile (`levelQuery`); every fetched movie is emitted with flat
`collaborativeScore = 1.0`. -/
def getLevelBasedRecommendations (env : ProviderEnv) (level : String) :
    List RecommendationScore :=
  match env.levelDiscover (levelQuery level) with
  | .error _ => []
  | .ok results =>
    results.map (fun movie =>
      { movieId := movie.id, score := 0, genreMatch := 0,
        languageMatch := 0, collaborativeScore := 1.0 })

/-- JS `new Set([...])` iteration order: first occurrences, in insertion
order. -/
def insertionDedup (l : List Nat) : List Nat :=
  l.foldl (fun acc x => if acc.contains x then acc else acc ++ [x]) []

/-- `getCollaborativeRecommendations`: union of watched, highly-rated (≥ 7)
and liked movie ids; inactive when empty; the first 3 ids are sampled and a
`similar` call issued for each (per-call `try/catch`), already-interacted
ids filtered out, flat `collaborativeScore = 1.5`. -/
def getCollaborativeRecommendations (env : ProviderEnv) (s : Store)
    (userId : Nat) : List RecommendationScore :=
  let userWatchedMovies := getWatchedMovies s userId
  let userRatings := getUserRatings s userId
  let userLikes := getUserLikes s userId
  let highlyRatedMovies := (userRatings.filter (fun r => 7 ≤ r.rating)).map (·.movieId)
  let userMovieInteractions :=
    insertionDedup (userWatchedMovies ++ highlyRatedMovies ++ userLikes)
  if userMovieInteractions.isEmpty then []
  else
    let sampleMovies := userMovieInteractions.take 3
    sampleMovies.flatMap (fun movieId =>
      match env.similar movieId with
      | .error _ => []
      | .ok results =>
        (results.filter (fun movie => !(userMovieInteractions.contains movie.id))).map
          (fun movie =>
            { movieId := movie.id, score := 0, genreMatch := 0,
              languageMatch := 0, collaborativeScore := 1.5 }))

/-- `getTrendingRecommendations`: weekly trending list, flat
`collaborativeScore = 0.8`. -/
def getTrendingRecommendations (env : ProviderEnv) : List RecommendationScore :=
  match env.trending with
  | .error _ => []
  | .ok results =>
    results.map (fun movie =>
      { movieId := movie.id, score := 0, genreMatch := 0,
        languageMatch := 0, collaborativeScore := 0.8 })

/-! ## Orchestrator -/

/-- The concatenation of the outputs of sources 1–5 (country, genre,
language, level, collaborative), in orchestration order. -/
def preFallbackCandidates (env : ProviderEnv) (s : Store) (user : User)
    (userId : Nat) : List RecommendationScore :=
  getCountryBasedRecommendations env user
    ++ getGenreBasedRecommendations env user
    ++ getLanguageBasedRecommendations env user
    ++ getLevelBasedRecommendations env (getUserLevel s userId).level
    ++ getCollaborativeRecommendations env s userId

/-- Sources 1–5 plus the trending fallback, appended only when fewer than 20
candidates were produced. -/
def runCandidates (env : ProviderEnv) (s : Store) (user : User)
    (userId : Nat) : List RecommendationScore :=
  let recommendations := preFallbackCandidates env s user userId
  if recommendations.length < 20 then
    recommendations ++ getTrendingRecommendations env
  else recommendations

/-- `generateRecommendationsForUser`: resolve the user (throwing
`"User not found"` otherwise — the store at the throw point travels in the
error, since a JS exception rolls nothing back), clear the user's stored
recommendations, run the generators, merge/score/sort, persist every entry,
return the ranked movie ids. -/
def generateRecommendationsForUser (userId : Nat) (env : ProviderEnv)
    (s : Store) : Except (String × Store) (List Nat × Store) :=
  match getUser s userId with
  | none => .error ("User not found", s)
  | some user =>
    let s1 := clearUserRecommendations s userId
    let sorted := rankedRecommendations (runCandidates env s1 user userId)
    let s2 := sorted.foldl (fun st rec =>
      saveRecommendation st userId rec.movieId rec.score rec.genreMatch
        rec.languageMatch rec.collaborativeScore) s1
    .ok (sorted.map (·.movieId), s2)

/-! ## Onboarding recommender -/

/-- Responses of the provider for the onboarding queries, keyed by the
parameters that vary. -/
structure OnboardingEnv where
  popular : Except Unit (List Movie)
  combined : List Nat → String → String → Except Unit (List Movie)
  countryOnly : String → Except Unit (List Movie)
  genreLanguage : Option (List Nat) → Option String → Except Unit (List Movie)

/-- Truthiness of `genres?.length` for an optional genre list. -/
def genresNonempty (genres : Option (List Nat)) : Bool :=
  match genres with
  | some (_ :: _) => true
  | _ => false

/-- Truthiness of `languages?.length`. -/
def languagesNonempty (languages : Option (List String)) : Bool :=
  match languages with
  | some (_ :: _) => true
  | _ => false

/-- Truthiness of `country` (absent and the empty string are falsy). -/
def countryTruthy (country : Option String) : Bool :=
  match country with
  | some c => !(c == "")
  | none => false

/-- The `languages?.[0]` parameter of the genre/language pass. -/
def firstLanguage (languages : Option (List String)) : Option String :=
  match languages with
  | some (l :: _) => some l
  | _ => none

/-- The body of `getOnboardingRecommendations` inside its outer `try`:
popular page for empty preferences, otherwise up to three enrichment passes
(combined, country-only, genre/language), each with its own `catch` and
id-set dedup against the accumulated results, then the popular fallback
(outside any inner `catch`) when everything stayed empty.  An uncaught
failure of a popular call is the `.error` case. -/
def getOnboardingRecommendationsBody (preferences : UserPreferences)
    (env : OnboardingEnv) : Except Unit (List Nat) :=
  let genres := preferences.genres
  let languages := preferences.languages
  let country := preferences.country
  if !genresNonempty genres && !languagesNonempty languages
      && !countryTruthy country then
    match env.popular with
    | .error e => .error e
    | .ok results => .ok ((results.take 20).map (·.id))
  else
    let allResults1 : List Movie :=
      if genresNonempty genres && languagesNonempty languages
          && countryTruthy country then
        match env.combined (genres.getD []) ((languages.getD []).headD "")
            (country.getD "") with
        | .error _ => []
        | .ok results => results
      else []
    let allResults2 : List Movie :=
      if countryTruthy country && decide (allResults1.length < 15) then
        match env.countryOnly (country.getD "") with
        | .error _ => allResults1
        | .ok results =>
          allResults1 ++ results.filter
            (fun movie => !((allResults1.map (·.id)).contains movie.id))
      else allResults1
    let allResults3 : List Movie :=
      if (genresNonempty genres || languagesNonempty languages)
          && decide (allResults2.length < 15) then
        match env.genreLanguage genres (firstLanguage languages) with
        | .error _ => allResults2
        | .ok results =>
          allResults2 ++ results.filter
            (fun movie => !((allResults2.map (·.id)).contains movie.id))
      else allResults2
    if allResults3.isEmpty then
      match env.popular with
      | .error e => .error e
      | .ok results => .ok ((results.take 20).map (·.id))
    else .ok ((allResults3.take 20).map (·.id))

/-- `getOnboardingRecommendations`: the body under the outer `catch`, which
converts any uncaught failure into the empty list. -/
def getOnboardingRecommendations (preferences : UserPreferences)
    (env : OnboardingEnv) : List Nat :=
  match getOnboardingRecommendationsBody preferences env with
  | .ok l => l
  | .error _ => []

/-! ## Concrete fixtures used by the witness instances -/

/-- A one-field movie summary (everything but the id or genre list kept
trivial), for concrete witnesses. -/
def mkMovie (id : Nat) (genreIds : List Nat) : Movie :=
  ⟨id, "", 0, 0, 0, "", "", genreIds⟩

/-- A provider whose every call fails (each generator then catches and
yields no candidates). -/
def noProviderEnv : ProviderEnv :=
  { genreDiscover := fun _ => .error ()
    languageDiscover := fun _ => .error ()
    countryDiscover := fun _ _ => .error ()
    levelDiscover := fun _ => .error ()
    similar := fun _ => .error ()
    trending := .error () }

/-- A stored user with id 1 and no preferences. -/
def sampleUser : User := ⟨1, none, none, none, none⟩

/-- A store holding exactly `sampleUser` and no interaction rows. -/
def sampleStore : Store := ⟨[sampleUser], [], [], [], []⟩

/-- A store with no rows at all. -/
def emptyStore : Store := ⟨[], [], [], [], []⟩

/-- A provider failing everywhere except a one-movie trending page. -/
def trendingOnlyEnv : ProviderEnv :=
  { noProviderEnv with trending := .ok [mkMovie 3 []] }

/-- A provider serving one page only for level queries sorted by
popularity (the Beginner profile), failing every other call. -/
def beginnerLevelEnv : ProviderEnv :=
  { noProviderEnv with levelDiscover := fun q =>
      if q.sortBy = "popularity.desc" then .ok [mkMovie 1 []] else .error () }

/-- A stored user preferring genres 28 and 12. -/
def genreUser : User := ⟨1, none, none, none, some ⟨some [28, 12], none, none, none⟩⟩

/-- A provider answering the genre discover call with one movie tagged with
genre ids 28 and 16 (the spec's scenario), failing every other call. -/
def genreEnv : ProviderEnv :=
  { noProviderEnv with genreDiscover := fun _ => .ok [mkMovie 42 [28, 16]] }

/-- An onboarding provider whose every call fails. -/
def noOnboardingEnv : OnboardingEnv :=
  { popular := .error ()
    combined := fun _ _ _ => .error ()
    countryOnly := fun _ => .error ()
    genreLanguage := fun _ _ => .error () }

/-- An onboarding provider serving fixed pages, for concrete witnesses. -/
def sampleOnboardingEnv : OnboardingEnv :=
  { popular := .ok [mkMovie 9 []]
    combined := fun _ _ _ => .ok [mkMovie 100 []]
    countryOnly := fun _ => .ok [mkMovie 200 []]
    genreLanguage := fun _ _ => .ok [mkMovie 7 [], mkMovie 8 []] }

/-! # Proofs -/

/-! ## The merger (`mergeAndScoreRecommendations`) -/

theorem isMaxOf_snoc {a b : ℚ} {l : List ℚ} (h : IsMaxOf a l) :
    IsMaxOf (max a b) (l ++ [b]) := by
  obtain ⟨hmem, hub⟩ := h
  constructor
  · rcases le_total b a with hba | hab
    · rw [max_eq_left hba]
      exact List.mem_append_left _ hmem
    · rw [max_eq_right hab]
      exact List.mem_append_right _ (List.mem_singleton_self b)
  · intro y hy
    rcases List.mem_append.mp hy with h1 | h1
    · exact le_trans (hub y h1) (le_max_left a b)
    · rw [List.mem_singleton.mp h1]
      exact le_max_right a b

theorem groupField_snoc (p : List RecommendationScore)
    (rec : RecommendationScore) (id : Nat) (f : RecommendationScore → ℚ) :
    groupField (p ++ [rec]) id f =
      groupField p id f ++ (if rec.movieId = id then [f rec] else []) := by
  unfold groupField
  rw [List.filter_append, List.map_append]
  by_cases h : rec.movieId = id <;> simp [List.filter_cons, h]

theorem maxMerge_movieId (r rec : RecommendationScore) :
    (maxMerge r rec).movieId = r.movieId := rfl

theorem mergeInv_step {p m : List RecommendationScore}
    {rec : RecommendationScore} (h : MergeInv p m) :
    MergeInv (p ++ [rec]) (mergeInto m rec) := by
  obtain ⟨hnd, hmax, hcomp⟩ := h
  unfold mergeInto
  by_cases hany : m.any (fun r => r.movieId == rec.movieId) = true
  · rw [if_pos hany]
    rw [List.any_eq_true] at hany
    obtain ⟨r0, hr0m, hr0id⟩ := hany
    rw [beq_iff_eq] at hr0id
    refine ⟨?_, ?_, ?_⟩
    · have hkeys :
        ((m.map (fun r => if r.movieId = rec.movieId then maxMerge r rec else r)).map
          (·.movieId)) = m.map (·.movieId) := by
        rw [List.map_map]
        apply List.map_congr_left
        intro x hx
        by_cases hid : x.movieId = rec.movieId <;> simp [hid, maxMerge]
      rw [hkeys]
      exact hnd
    · intro e he
      rw [List.mem_map] at he
      obtain ⟨x, hxm, hxe⟩ := he
      obtain ⟨hg, hl, hc⟩ := hmax x hxm
      by_cases hid : x.movieId = rec.movieId
      · rw [if_pos hid] at hxe
        subst hxe
        rw [maxMerge_movieId, groupField_snoc, groupField_snoc, groupField_snoc,
          if_pos hid.symm, if_pos hid.symm, if_pos hid.symm]
        exact ⟨isMaxOf_snoc hg, isMaxOf_snoc hl, isMaxOf_snoc hc⟩
      · rw [if_neg hid] at hxe
        subst hxe
        rw [groupField_snoc, groupField_snoc, groupField_snoc,
          if_neg (fun hh => hid hh.symm), if_neg (fun hh => hid hh.symm),
          if_neg (fun hh => hid hh.symm)]
        simp only [List.append_nil]
        exact ⟨hg, hl, hc⟩
    · intro r' hr'
      rcases List.mem_append.mp hr' with h1 | h1
      · obtain ⟨e, hem, heid⟩ := hcomp r' h1
        refine ⟨(if e.movieId = rec.movieId then maxMerge e rec else e),
          List.mem_map_of_mem _ hem, ?_⟩
        by_cases hid : e.movieId = rec.movieId
        · rw [if_pos hid, maxMerge_movieId]
          exact heid
        · rw [if_neg hid]
          exact heid
      · rw [List.mem_singleton.mp h1]
        refine ⟨(if r0.movieId = rec.movieId then maxMerge r0 rec else r0),
          List.mem_map_of_mem _ hr0m, ?_⟩
        rw [if_pos hr0id, maxMerge_movieId, hr0id]
  · rw [if_neg hany]
    rw [List.any_eq_true] at hany
    push_neg at hany
    have hnone : ∀ x ∈ m, x.movieId ≠ rec.movieId := by
      intro x hx
      have := hany x hx
      simpa [beq_iff_eq] using this
    refine ⟨?_, ?_, ?_⟩
    · rw [List.map_append]
      simp only [List.map_cons, List.map_nil]
      rw [List.nodup_append]
      refine ⟨hnd, List.nodup_singleton _, ?_⟩
      intro a ham hb
      rw [List.mem_singleton] at hb
      subst hb
      obtain ⟨x, hxm, hxid⟩ := List.mem_map.mp ham
      exact hnone x hxm hxid
    · intro e he
      rcases List.mem_append.mp he with h1 | h1
      · obtain ⟨hg, hl, hc⟩ := hmax e h1
        have hne : rec.movieId ≠ e.movieId := fun hh => hnone e h1 hh.symm
        rw [groupField_snoc, groupField_snoc, groupField_snoc,
          if_neg hne, if_neg hne, if_neg hne]
        simp only [List.append_nil]
        exact ⟨hg, hl, hc⟩
      · rw [List.mem_singleton.mp h1]
        have hempty : ∀ f : RecommendationScore → ℚ,
            groupField p rec.movieId f = [] := by
          intro f
          unfold groupField
          rw [List.filter_eq_nil_iff.mpr, List.map_nil]
          intro r' hr'
          intro hbeq
          rw [beq_iff_eq] at hbeq
          obtain ⟨e, hem, heid⟩ := hcomp r' hr'
          exact hnone e hem (heid.trans hbeq)
        have hone : ∀ f : RecommendationScore → ℚ,
            groupField (p ++ [rec]) rec.movieId f = [f rec] := by
          intro f
          rw [groupField_snoc, if_pos rfl, hempty, List.nil_append]
        refine ⟨?_, ?_, ?_⟩ <;>
          · rw [hone]
            exact ⟨List.mem_singleton_self _, by
              intro y hy
              rw [List.mem_singleton.mp hy]⟩
    · intro r' hr'
      rcases List.mem_append.mp hr' with h1 | h1
      · obtain ⟨e, hem, heid⟩ := hcomp r' h1
        exact ⟨e, List.mem_append_left _ hem, heid⟩
      · exact ⟨rec, List.mem_append_right _ (List.mem_singleton_self _),
          (List.mem_singleton.mp h1) ▸ rfl⟩

theorem mergeInv_foldl :
    ∀ (recs p m : List RecommendationScore), MergeInv p m →
      MergeInv (p ++ recs) (recs.foldl mergeInto m)
  | [], p, m, h => by simpa using h
  | rec :: rest, p, m, h => by
    have h2 := mergeInv_foldl rest (p ++ [rec]) (mergeInto m rec)
      (mergeInv_step h)
    simpa using h2

theorem mergeInv_nil : MergeInv [] [] := by
  refine ⟨List.nodup_nil, ?_, ?_⟩ <;> intro e he <;> exact absurd he (by simp)

theorem merged_invariant (recs : List RecommendationScore) :
    MergeInv recs (recs.foldl mergeInto []) := by
  simpa using mergeInv_foldl recs [] [] mergeInv_nil

theorem applyScore_movieId (r : RecommendationScore) :
    (applyScore r).movieId = r.movieId := rfl

/-- **C1.** Every entry emitted by `mergeAndScoreRecommendations` carries, in
each of `genreMatch`, `languageMatch` and `collaborativeScore`, exactly the
maximum of that field over all input entries sharing its movie id (the
maximum occurs among those values and bounds them — in particular never
their sum). -/
theorem merger_fields_are_componentwise_max
    (recs : List RecommendationScore) (e : RecommendationScore)
    (he : e ∈ mergeAndScoreRecommendations recs) :
    IsMaxOf e.genreMatch (groupField recs e.movieId (·.genreMatch)) ∧
    IsMaxOf e.languageMatch (groupField recs e.movieId (·.languageMatch)) ∧
    IsMaxOf e.collaborativeScore
      (groupField recs e.movieId (·.collaborativeScore)) := by
  obtain ⟨x, hx, hxe⟩ := List.mem_map.mp he
  obtain ⟨-, hmax, -⟩ := merged_invariant recs
  have := hmax x hx
  subst hxe
  simpa [applyScore] using this

/-- **C2.** Every entry of the merger's output has
`score = genreMatch + languageMatch + collaborativeScore`, recomputed at
merge time whatever score values the inputs carried. -/
theorem merger_score_is_recomputed_sum
    (recs : List RecommendationScore) (e : RecommendationScore)
    (he : e ∈ mergeAndScoreRecommendations recs) :
    e.score = e.genreMatch + e.languageMatch + e.collaborativeScore := by
  obtain ⟨x, hx, hxe⟩ := List.mem_map.mp he
  subst hxe
  rfl

/-- **C3.** The merger never emits two entries with the same movie id. -/
theorem merger_ids_nodup (recs : List RecommendationScore) :
    ((mergeAndScoreRecommendations recs).map (·.movieId)).Nodup := by
  obtain ⟨hnd, -, -⟩ := merged_invariant recs
  unfold mergeAndScoreRecommendations
  rw [List.map_map]
  have : ((·.movieId) ∘ applyScore :
      RecommendationScore → Nat) = (·.movieId) := rfl
  rw [this]
  exact hnd

/-- Witness for C1 at a concrete input: two entries for movie 1 whose merged
entry carries the max on each field. -/
theorem merger_fields_are_componentwise_max_witness :
    IsMaxOf (RecommendationScore.mk 1 3 1 2 0).genreMatch
      (groupField [⟨1, 0, 1, 0, 0⟩, ⟨1, 0, 0, 2, 0⟩]
        (RecommendationScore.mk 1 3 1 2 0).movieId (·.genreMatch)) ∧
    IsMaxOf (RecommendationScore.mk 1 3 1 2 0).languageMatch
      (groupField [⟨1, 0, 1, 0, 0⟩, ⟨1, 0, 0, 2, 0⟩]
        (RecommendationScore.mk 1 3 1 2 0).movieId (·.languageMatch)) ∧
    IsMaxOf (RecommendationScore.mk 1 3 1 2 0).collaborativeScore
      (groupField [⟨1, 0, 1, 0, 0⟩, ⟨1, 0, 0, 2, 0⟩]
        (RecommendationScore.mk 1 3 1 2 0).movieId (·.collaborativeScore)) :=
  merger_fields_are_componentwise_max
    [⟨1, 0, 1, 0, 0⟩, ⟨1, 0, 0, 2, 0⟩] ⟨1, 3, 1, 2, 0⟩
    (by simp [mergeAndScoreRecommendations, mergeInto, maxMerge, applyScore]
        norm_num)

/-- Witness for C2 at the spec's scenario: movie 5 from the genre generator
(`genreMatch = 0.6`) and the language generator (`languageMatch = 1.1`)
merges to `score = 1.7`. -/
theorem merger_score_is_recomputed_sum_witness :
    (RecommendationScore.mk 5 1.7 0.6 1.1 0).score =
      (RecommendationScore.mk 5 1.7 0.6 1.1 0).genreMatch +
      (RecommendationScore.mk 5 1.7 0.6 1.1 0).languageMatch +
      (RecommendationScore.mk 5 1.7 0.6 1.1 0).collaborativeScore :=
  merger_score_is_recomputed_sum
    [⟨5, 0, 0.6, 0, 0⟩, ⟨5, 0, 0, 1.1, 0⟩] ⟨5, 1.7, 0.6, 1.1, 0⟩
    (by simp [mergeAndScoreRecommendations, mergeInto, maxMerge, applyScore]
        norm_num)

/-! ## Ranking (stable descending sort) and the orchestrator -/

theorem mem_insertDesc {x z : RecommendationScore} :
    ∀ {l : List RecommendationScore}, z ∈ insertDesc x l ↔ z = x ∨ z ∈ l := by
  intro l
  induction l with
  | nil => simp [insertDesc]
  | cons y ys ih =>
    rw [insertDesc]
    by_cases h : x.score < y.score
    · rw [if_pos h]
      simp only [List.mem_cons, ih]
      tauto
    · rw [if_neg h]
      simp only [List.mem_cons]

theorem insertDesc_pairwise {x : RecommendationScore}
    {l : List RecommendationScore}
    (hl : l.Pairwise (fun a b => b.score ≤ a.score)) :
    (insertDesc x l).Pairwise (fun a b => b.score ≤ a.score) := by
  induction l with
  | nil => simp [insertDesc]
  | cons y ys ih =>
    rw [List.pairwise_cons] at hl
    obtain ⟨hy, hys⟩ := hl
    rw [insertDesc]
    by_cases h : x.score < y.score
    · rw [if_pos h]
      rw [List.pairwise_cons]
      refine ⟨?_, ih hys⟩
      intro z hz
      rcases mem_insertDesc.mp hz with hz1 | hz1
      · rw [hz1]
        exact le_of_lt h
      · exact hy z hz1
    · rw [if_neg h]
      rw [List.pairwise_cons]
      refine ⟨?_, List.pairwise_cons.mpr ⟨hy, hys⟩⟩
      intro z hz
      rcases List.mem_cons.mp hz with hz1 | hz1
      · rw [hz1]
        exact le_of_not_lt h
      · exact le_trans (hy z hz1) (le_of_not_lt h)

theorem sortByScoreDesc_pairwise (l : List RecommendationScore) :
    (sortByScoreDesc l).Pairwise (fun a b => b.score ≤ a.score) := by
  induction l with
  | nil => simp [sortByScoreDesc]
  | cons a rest ih => exact insertDesc_pairwise ih

theorem insertDesc_filter (x : RecommendationScore) (q : ℚ) :
    ∀ l : List RecommendationScore,
      (insertDesc x l).filter (fun r => decide (r.score = q)) =
        if x.score = q then
          x :: l.filter (fun r => decide (r.score = q))
        else l.filter (fun r => decide (r.score = q)) := by
  intro l
  induction l with
  | nil =>
    rw [insertDesc]
    by_cases hx : x.score = q <;> simp [List.filter_cons, hx]
  | cons y ys ih =>
    rw [insertDesc]
    by_cases h : x.score < y.score
    · rw [if_pos h]
      by_cases hx : x.score = q
      · have hy : ¬ y.score = q := by
          intro hyq
          rw [hx, hyq] at h
          exact lt_irrefl q h
        simp [List.filter_cons, hx, hy, ih]
      · simp [List.filter_cons, hx, ih]
    · rw [if_neg h]
      by_cases hx : x.score = q <;> simp [List.filter_cons, hx]

theorem sortByScoreDesc_filter (l : List RecommendationScore) (q : ℚ) :
    (sortByScoreDesc l).filter (fun r => decide (r.score = q)) =
      l.filter (fun r => decide (r.score = q)) := by
  induction l with
  | nil => rfl
  | cons a rest ih =>
    have : sortByScoreDesc (a :: rest) = insertDesc a (sortByScoreDesc rest) := rfl
    rw [this, insertDesc_filter, List.filter_cons]
    by_cases hx : a.score = q
    · rw [if_pos hx, ih]
      simp [hx]
    · rw [if_neg hx, ih]
      simp [hx]

/-- **C4.** The merged entries of a generation run are ranked by a stable
descending sort on `score`: the ranking is non-increasing in `score`,
entries of equal score keep their relative pre-sort order (the score-`q`
entries of the ranked list are exactly those of the merged list, in order,
for every `q` — no secondary tie-break), and on success
`generateRecommendationsForUser` returns exactly the movie ids of that
ranked list. -/
theorem ranking_sorted_and_stable :
    (∀ recs : List RecommendationScore,
      (rankedRecommendations recs).Pairwise (fun a b => b.score ≤ a.score)) ∧
    (∀ (recs : List RecommendationScore) (q : ℚ),
      (rankedRecommendations recs).filter (fun r => decide (r.score = q)) =
        (mergeAndScoreRecommendations recs).filter
          (fun r => decide (r.score = q))) ∧
    (∀ (userId : Nat) (env : ProviderEnv) (s : Store) (user : User),
      getUser s userId = some user →
      ∃ s2, generateRecommendationsForUser userId env s =
        .ok ((rankedRecommendations (runCandidates env
          (clearUserRecommendations s userId) user userId)).map (·.movieId),
          s2)) := by
  refine ⟨?_, ?_, ?_⟩
  · intro recs
    exact sortByScoreDesc_pairwise _
  · intro recs q
    exact sortByScoreDesc_filter _ q
  · intro userId env s user h
    unfold generateRecommendationsForUser
    rw [h]
    exact ⟨_, rfl⟩

/-- Witness for C4 at a concrete user and provider. -/
theorem ranking_sorted_and_stable_witness :
    ∃ s2, generateRecommendationsForUser 1 noProviderEnv sampleStore =
      .ok ((rankedRecommendations (runCandidates noProviderEnv
        (clearUserRecommendations sampleStore 1) sampleUser 1)).map
          (·.movieId), s2) :=
  ranking_sorted_and_stable.2.2 1 noProviderEnv sampleStore sampleUser rfl

/-- **C5.** A user id that resolves to no stored user fails the whole run
with the `"User not found"` error, and the store at the throw point is the
caller's store, untouched: no rows cleared, none written. -/
theorem generate_missing_user_error_leaves_store
    (userId : Nat) (env : ProviderEnv) (s : Store)
    (h : getUser s userId = none) :
    generateRecommendationsForUser userId env s =
      .error ("User not found", s) := by
  unfold generateRecommendationsForUser
  rw [h]

/-- Witness for C5: user 2 is not in the empty store. -/
theorem generate_missing_user_error_leaves_store_witness :
    generateRecommendationsForUser 2 noProviderEnv emptyStore =
      .error ("User not found", emptyStore) :=
  generate_missing_user_error_leaves_store 2 noProviderEnv emptyStore rfl

/-- **C6.** The trending fallback is appended exactly when sources 1–5
produced strictly fewer than 20 candidates, and every candidate it emits has
`collaborativeScore = 0.8` with `genreMatch` and `languageMatch` zero. -/
theorem trending_fallback_iff_under_twenty
    (env : ProviderEnv) (s : Store) (user : User) (userId : Nat) :
    ((preFallbackCandidates env s user userId).length < 20 →
      runCandidates env s user userId =
        preFallbackCandidates env s user userId ++
          getTrendingRecommendations env) ∧
    (20 ≤ (preFallbackCandidates env s user userId).length →
      runCandidates env s user userId =
        preFallbackCandidates env s user userId) ∧
    (∀ e ∈ getTrendingRecommendations env,
      e.collaborativeScore = 0.8 ∧ e.genreMatch = 0 ∧ e.languageMatch = 0) := by
  refine ⟨?_, ?_, ?_⟩
  · intro h
    simp only [runCandidates]
    rw [if_pos h]
  · intro h
    simp only [runCandidates]
    rw [if_neg (not_lt.mpr h)]
  · intro e he
    unfold getTrendingRecommendations at he
    cases htr : env.trending with
    | error u =>
      rw [htr] at he
      exact absurd he (by simp)
    | ok results =>
      rw [htr] at he
      obtain ⟨m, hm, hme⟩ := List.mem_map.mp he
      subst hme
      exact ⟨rfl, rfl, rfl⟩

/-- Witness for C6: with zero candidates from sources 1–5, the trending page
is appended, and its single candidate carries the 0.8 weight. -/
theorem trending_fallback_iff_under_twenty_witness :
    runCandidates trendingOnlyEnv emptyStore sampleUser 1 =
      preFallbackCandidates trendingOnlyEnv emptyStore sampleUser 1 ++
        getTrendingRecommendations trendingOnlyEnv ∧
    ((RecommendationScore.mk 3 0 0 0 0.8).collaborativeScore = 0.8 ∧
      (RecommendationScore.mk 3 0 0 0 0.8).genreMatch = 0 ∧
      (RecommendationScore.mk 3 0 0 0 0.8).languageMatch = 0) :=
  ⟨(trending_fallback_iff_under_twenty trendingOnlyEnv emptyStore sampleUser 1).1
      (by decide),
   (trending_fallback_iff_under_twenty trendingOnlyEnv emptyStore sampleUser 1).2.2
      ⟨3, 0, 0, 0, 0.8⟩
      (by simp [getTrendingRecommendations, trendingOnlyEnv, noProviderEnv, mkMovie])⟩

/-! ## Level-based generator -/

/-- **C7, counterexample.** The claim says an unrecognized level name
receives the same query profile as `Beginner`; in the code the `default`
branch of the `switch` issues a distinct query (sorted by rating, no
minimum-rating filter), so for the unrecognized level `"Novice"` the profile
differs from Beginner's, and a provider distinguishing the two queries
returns different candidates. -/
theorem level_default_profile_counterexample :
    levelQuery "Novice" ≠ levelQuery "Beginner" ∧
    getLevelBasedRecommendations beginnerLevelEnv "Novice" ≠
      getLevelBasedRecommendations beginnerLevelEnv "Beginner" := by
  constructor
  · intro h
    exact absurd (congrArg DiscoverQuery.sortBy h) (by decide)
  · intro h
    have h2 := congrArg List.length h
    simp [getLevelBasedRecommendations, beginnerLevelEnv, noProviderEnv,
      levelQuery, mkMovie] at h2

/-- **C7, amended.** The level-based generator selects one of five fixed
query profiles: four keyed by the recognized level names, and a distinct
default profile (rating-sorted, minimum 1000 votes, no keyword or
minimum-rating filter) for any unrecognized level name — not Beginner's
profile; every candidate it emits carries a flat `collaborativeScore = 1.0`
with `genreMatch` and `languageMatch` zero, whichever profile was used. -/
theorem level_profiles_and_flat_weight :
    (∀ level : String,
      level ∉ ["Beginner", "Explorer", "Cinephile", "Connoisseur"] →
      levelQuery level = ⟨"vote_average.desc", none, some 1000, none⟩) ∧
    (∀ (env : ProviderEnv) (level : String),
      ∀ e ∈ getLevelBasedRecommendations env level,
        e.collaborativeScore = 1.0 ∧ e.genreMatch = 0 ∧ e.languageMatch = 0) := by
  constructor
  · intro level h
    simp only [List.mem_cons, List.not_mem_nil, or_false, not_or] at h
    obtain ⟨h1, h2, h3, h4⟩ := h
    unfold levelQuery
    rw [if_neg h1, if_neg h2, if_neg h3, if_neg h4]
  · intro env level e he
    unfold getLevelBasedRecommendations at he
    cases hq : env.levelDiscover (levelQuery level) with
    | error u =>
      rw [hq] at he
      exact absurd he (by simp)
    | ok results =>
      rw [hq] at he
      obtain ⟨m, hm, hme⟩ := List.mem_map.mp he
      subst hme
      exact ⟨rfl, rfl, rfl⟩

/-- Witness for the amended C7: the unrecognized level `"Novice"` gets the
default profile, and a concrete emitted candidate has the flat weight. -/
theorem level_profiles_and_flat_weight_witness :
    levelQuery "Novice" = ⟨"vote_average.desc", none, some 1000, none⟩ ∧
    ((RecommendationScore.mk 1 0 0 0 1.0).collaborativeScore = 1.0 ∧
      (RecommendationScore.mk 1 0 0 0 1.0).genreMatch = 0 ∧
      (RecommendationScore.mk 1 0 0 0 1.0).languageMatch = 0) :=
  ⟨level_profiles_and_flat_weight.1 "Novice" (by decide),
   level_profiles_and_flat_weight.2 beginnerLevelEnv "Beginner" ⟨1, 0, 0, 0, 1.0⟩
     (by simp [getLevelBasedRecommendations, beginnerLevelEnv, noProviderEnv,
       levelQuery, mkMovie])⟩

/-! ## Genre-based generator -/

theorem length_filter_mem_comm {a b : List Nat} (ha : a.Nodup)
    (hb : b.Nodup) :
    (a.filter (fun x => decide (x ∈ b))).length =
      (b.filter (fun x => decide (x ∈ a))).length := by
  have key : ∀ (u v : List Nat), u.Nodup →
      (u.filter (fun x => decide (x ∈ v))).length =
        (u.toFinset ∩ v.toFinset).card := by
    intro u v hu
    have hfin : (u.filter (fun x => decide (x ∈ v))).toFinset =
        u.toFinset ∩ v.toFinset := by
      ext x
      simp [List.mem_filter]
    rw [← hfin, List.toFinset_card_of_nodup (hu.filter _)]
  rw [key a b ha, key b a hb, Finset.inter_comm]

/-- **C8.** The genre-based generator returns the empty list when the user
has no preferred genres; otherwise (for duplicate-free genre lists, as both
the preference set and the provider's tag lists are) every returned movie is
scored `genreMatch = (|preferred genres present on the movie| / |preferred
genres|) × 1.2` with every other field zero. -/
theorem genre_generator_activation_and_formula
    (env : ProviderEnv) (user : User) :
    (userGenres user = [] → getGenreBasedRecommendations env user = []) ∧
    (∀ results : List Movie, userGenres user ≠ [] →
      env.genreDiscover (userGenres user) = .ok results →
      (userGenres user).Nodup →
      (∀ m ∈ results, m.genre_ids.Nodup) →
      getGenreBasedRecommendations env user = results.map (fun movie =>
        { movieId := movie.id
          score := 0
          genreMatch := (((userGenres user).filter
              (fun g => decide (g ∈ movie.genre_ids))).length : ℚ) /
            ((userGenres user).length : ℚ) * 1.2
          languageMatch := 0
          collaborativeScore := 0 })) := by
  constructor
  · intro h
    unfold getGenreBasedRecommendations
    rw [if_pos (by rw [h]; rfl)]
  · intro results hne hok hnd hresults
    unfold getGenreBasedRecommendations
    rw [if_neg (by simpa [List.isEmpty_iff] using hne), hok]
    apply List.map_congr_left
    intro m hm
    have hbridge : m.genre_ids.filter (fun id => (userGenres user).contains id)
        = m.genre_ids.filter (fun id => decide (id ∈ userGenres user)) := by
      apply List.filter_congr
      intro x hx
      simp
    have hlen : ((m.genre_ids.filter
        (fun id => (userGenres user).contains id)).length : ℚ)
        = (((userGenres user).filter
            (fun g => decide (g ∈ m.genre_ids))).length : ℚ) := by
      rw [hbridge]
      exact_mod_cast (length_filter_mem_comm (hresults m hm) hnd)
    simp only [hlen]

/-- Witness for C8 at the spec's scenario: preferred genres `[28, 12]`, one
movie tagged `[28, 16]`, yielding `genreMatch = (1/2) × 1.2 = 0.6`. -/
theorem genre_generator_activation_and_formula_witness :
    getGenreBasedRecommendations genreEnv genreUser =
      [mkMovie 42 [28, 16]].map (fun movie =>
        { movieId := movie.id
          score := 0
          genreMatch := (((userGenres genreUser).filter
              (fun g => decide (g ∈ movie.genre_ids))).length : ℚ) /
            ((userGenres genreUser).length : ℚ) * 1.2
          languageMatch := 0
          collaborativeScore := 0 }) ∧
    (((userGenres genreUser).filter
        (fun g => decide (g ∈ (mkMovie 42 [28, 16]).genre_ids))).length : ℚ) /
      ((userGenres genreUser).length : ℚ) * 1.2 = 0.6 :=
  ⟨(genre_generator_activation_and_formula genreEnv genreUser).2
      [mkMovie 42 [28, 16]] (by decide) rfl (by decide) (by decide),
   by norm_num [userGenres, genreUser, mkMovie, List.filter]⟩

/-! ## Onboarding recommender -/

theorem take20_map_id_length (rs : List Movie) :
    ((rs.take 20).map (·.id)).length ≤ 20 := by
  rw [List.length_map, List.length_take]
  exact min_le_left _ _

theorem take20_map_id_nodup {rs : List Movie}
    (h : (rs.map (·.id)).Nodup) : ((rs.take 20).map (·.id)).Nodup := by
  have hsub : ((rs.take 20).map (·.id)).Sublist (rs.map (·.id)) :=
    (List.take_sublist _ _).map _
  exact h.sublist hsub

/-- The popular-movies fallback page of the onboarding routine, as an id
list. -/
def popularFallback (env : OnboardingEnv) : List Nat :=
  match env.popular with
  | .ok ps => (ps.take 20).map (·.id)
  | .error _ => []

/-- **C9.** For preferences with at least one genre but no languages and no
country, the onboarding routine skips the combined pass and the country-only
pass and serves the genre/language pass (falling back to the popular page
only when that pass yields nothing); the result is truncated to at most 20
ids and — the provider pages carrying no duplicate ids — contains no
duplicate movie ids. -/
theorem onboarding_genre_only_path
    (preferences : UserPreferences) (env : OnboardingEnv)
    (hg : genresNonempty preferences.genres = true)
    (hl : languagesNonempty preferences.languages = false)
    (hc : countryTruthy preferences.country = false)
    (hnodup1 : ∀ rs, env.genreLanguage preferences.genres
      (firstLanguage preferences.languages) = .ok rs → (rs.map (·.id)).Nodup)
    (hnodup2 : ∀ ps, env.popular = .ok ps → (ps.map (·.id)).Nodup) :
    getOnboardingRecommendations preferences env =
      (match env.genreLanguage preferences.genres
          (firstLanguage preferences.languages) with
       | .ok rs => if rs.isEmpty then popularFallback env
           else (rs.take 20).map (·.id)
       | .error _ => popularFallback env) ∧
    (getOnboardingRecommendations preferences env).length ≤ 20 ∧
    (getOnboardingRecommendations preferences env).Nodup := by
  have hbody : getOnboardingRecommendations preferences env =
      (match env.genreLanguage preferences.genres
          (firstLanguage preferences.languages) with
       | .ok rs => if rs.isEmpty then popularFallback env
           else (rs.take 20).map (·.id)
       | .error _ => popularFallback env) := by
    unfold getOnboardingRecommendations getOnboardingRecommendationsBody
    cases hgl : env.genreLanguage preferences.genres
        (firstLanguage preferences.languages) with
    | error u =>
      cases hp : env.popular with
      | error v => simp [hg, hl, hc, hgl, hp, popularFallback]
      | ok ps => simp [hg, hl, hc, hgl, hp, popularFallback]
    | ok rs =>
      cases rs with
      | nil =>
        cases hp : env.popular with
        | error v => simp [hg, hl, hc, hgl, hp, popularFallback]
        | ok ps => simp [hg, hl, hc, hgl, hp, popularFallback]
      | cons r rest => simp [hg, hl, hc, hgl, popularFallback]
  have hpopLen : (popularFallback env).length ≤ 20 := by
    unfold popularFallback
    cases hp : env.popular with
    | error v => simp
    | ok ps => exact take20_map_id_length ps
  have hpopNodup : (popularFallback env).Nodup := by
    unfold popularFallback
    cases hp : env.popular with
    | error v => simp
    | ok ps => exact take20_map_id_nodup (hnodup2 ps hp)
  refine ⟨hbody, ?_, ?_⟩
  · rw [hbody]
    cases hgl : env.genreLanguage preferences.genres
        (firstLanguage preferences.languages) with
    | error u => exact hpopLen
    | ok rs =>
      show (if rs.isEmpty = true then popularFallback env
        else (rs.take 20).map (·.id)).length ≤ 20
      by_cases hrs : rs.isEmpty = true
      · rw [if_pos hrs]
        exact hpopLen
      · rw [if_neg hrs]
        exact take20_map_id_length rs
  · rw [hbody]
    cases hgl : env.genreLanguage preferences.genres
        (firstLanguage preferences.languages) with
    | error u => exact hpopNodup
    | ok rs =>
      show (if rs.isEmpty = true then popularFallback env
        else (rs.take 20).map (·.id)).Nodup
      by_cases hrs : rs.isEmpty = true
      · rw [if_pos hrs]
        exact hpopNodup
      · rw [if_neg hrs]
        exact take20_map_id_nodup (hnodup1 rs hgl)

/-- Witness for C9: a single preferred genre, no languages, no country, and
a two-movie genre/language page. -/
theorem onboarding_genre_only_path_witness :
    getOnboardingRecommendations ⟨some [28], none, none, none⟩
        sampleOnboardingEnv =
      (match sampleOnboardingEnv.genreLanguage
          (UserPreferences.mk (some [28]) none none none).genres
          (firstLanguage
            (UserPreferences.mk (some [28]) none none none).languages) with
       | .ok rs => if rs.isEmpty then popularFallback sampleOnboardingEnv
           else (rs.take 20).map (·.id)
       | .error _ => popularFallback sampleOnboardingEnv) ∧
    (getOnboardingRecommendations ⟨some [28], none, none, none⟩
        sampleOnboardingEnv).length ≤ 20 ∧
    (getOnboardingRecommendations ⟨some [28], none, none, none⟩
        sampleOnboardingEnv).Nodup :=
  onboarding_genre_only_path ⟨some [28], none, none, none⟩ sampleOnboardingEnv
    rfl rfl rfl
    (fun rs h => by
      simp only [sampleOnboardingEnv, Except.ok.injEq] at h
      subst h
      decide)
    (fun ps h => by
      simp only [sampleOnboardingEnv, Except.ok.injEq] at h
      subst h
      decide)

/-- **C10.** Whenever the body of the onboarding routine fails beyond its
per-pass handlers (an uncaught popular-page failure), the outer handler
returns the empty list instead of propagating the error. -/
theorem onboarding_never_throws (preferences : UserPreferences)
    (env : OnboardingEnv) (e : Unit)
    (h : getOnboardingRecommendationsBody preferences env = .error e) :
    getOnboardingRecommendations preferences env = [] := by
  unfold getOnboardingRecommendations
  rw [h]

/-- Witness for C10: with no preferences and a failing popular call, the
body errors and the routine returns the empty list. -/
theorem onboarding_never_throws_witness :
    getOnboardingRecommendations ⟨none, none, none, none⟩ noOnboardingEnv
      = [] :=
  onboarding_never_throws ⟨none, none, none, none⟩ noOnboardingEnv () rfl

end MovieRec

